import Mathlib

/-!
# Verification of the openapi-operation-executor request pipeline

A shallow embedding of the request-resolution and security-negotiation engine of
`@comake/openapi-operation-executor`, translated from the TypeScript sources
(`OpenApiOperationExecutor.ts`, `OpenApiAxiosParamFactory.ts`, `OpenApiClientUtils.ts`),
together with theorems settling the specification claims about it.

Modelling conventions, used throughout:
* JavaScript objects that serve as ordered string-keyed dictionaries (query/header
  accumulators, `args`, OpenAPI `paths`, security schemes, ...) are association lists
  `List (String × α)` in document/insertion order; property assignment updates the
  first matching key in place or appends (`setEntry`), and object spread is a
  left-to-right fold of assignments (`spreadMerge`), matching JS key-order semantics.
* `undefined` is `Option.none`; a property that is present but `null`/`undefined`
  (which `in` sees but `??` skips) is an entry whose value is `none`.
* Template-literal interpolation of a possibly-undefined value produces the string
  `"undefined"`, as in JS (`jsShow`).
* Promises are their resolved values and async functions are pure functions: the
  embedding is of the value-level data flow, which is what the claims are about.
* JS numbers are modelled as `Int` (the claims only exercise integral values).
-/

/-- JS template-literal rendering of a possibly-undefined string value:
`undefined` interpolates as the literal string `"undefined"`. -/
def jsShow : Option String → String
  | some s => s
  | none => "undefined"

/-- First-match association-list lookup: JS property read `obj[key]`. -/
def lookupEntry {α : Type} : List (String × α) → String → Option α
  | [], _ => none
  | (k, v) :: rest, key => if k = key then some v else lookupEntry rest key

/-- JS `key in obj`: the property exists (its value may still be `undefined`). -/
def hasEntry {α : Type} (l : List (String × α)) (key : String) : Bool :=
  (lookupEntry l key).isSome

/-- JS property assignment `obj[key] = v`: overwrite in place if the key exists
(keeping its position), else append the new key. -/
def setEntry {α : Type} : List (String × α) → String → α → List (String × α)
  | [], key, v => [(key, v)]
  | (k, w) :: rest, key, v =>
    if k = key then (k, v) :: rest else (k, w) :: setEntry rest key v

/-- JS object spread `{...a, ...b}`: assign every entry of `b` on top of `a`. -/
def spreadMerge {α : Type} (a b : List (String × α)) : List (String × α) :=
  b.foldl (fun acc kv => setEntry acc kv.1 kv.2) a

/-- The `JSONValue` type of `OpenApiClientUtils.ts`: primitive string/number/boolean
values and arbitrarily nested arrays and objects (entries in document order). -/
inductive JSONValue where
  | str (s : String)
  | num (n : Int)
  | bool (b : Bool)
  | arr (elems : List JSONValue)
  | obj (entries : List (String × JSONValue))

/-- JS `typeof v === 'object'`: true exactly for arrays and objects here. -/
def JSONValue.isObjectLike : JSONValue → Bool
  | .arr _ => true
  | .obj _ => true
  | _ => false

mutual
/-- JS `String(v)` coercion: numbers and booleans print canonically, arrays join
their coerced elements with `,`, plain objects print `[object Object]`. -/
def jsToString : JSONValue → String
  | .str s => s
  | .num n => toString n
  | .bool b => if b then "true" else "false"
  | .arr es => String.intercalate "," (jsToStringList es)
  | .obj _ => "[object Object]"

def jsToStringList : List JSONValue → List String
  | [] => []
  | v :: rest => jsToString v :: jsToStringList rest
end

/-- Characters `encodeURIComponent` leaves unescaped: alphanumerics and
`- _ . ! ~ * ' ( )`. -/
def isUnescapedURIChar (c : Char) : Bool :=
  (('A' ≤ c && c ≤ 'Z') || ('a' ≤ c && c ≤ 'z') || ('0' ≤ c && c ≤ '9')) ||
  (c == '-' || c == '_' || c == '.' || c == '!' || c == '~' ||
   c == '*' || c == '\'' || c == '(' || c == ')')

/-- Standard UTF-8 encoding of one code point, as byte values. -/
def utf8EncodeChar (c : Char) : List Nat :=
  if c.toNat < 128 then [c.toNat]
  else if c.toNat < 2048 then [192 + c.toNat / 64, 128 + c.toNat % 64]
  else if c.toNat < 65536 then
    [224 + c.toNat / 4096, 128 + c.toNat / 64 % 64, 128 + c.toNat % 64]
  else
    [240 + c.toNat / 262144, 128 + c.toNat / 4096 % 64, 128 + c.toNat / 64 % 64,
     128 + c.toNat % 64]

/-- UTF-8 bytes of a string (Node's `Buffer.from(s, 'utf-8')`). -/
def utf8Bytes (s : String) : List Nat :=
  (s.toList.map utf8EncodeChar).flatten

/-- Uppercase hexadecimal digit for `n < 16`. -/
def hexDigitUpper (n : Nat) : Char :=
  if n < 10 then Char.ofNat (48 + n) else Char.ofNat (55 + n)

/-- JS `encodeURIComponent`: unescaped characters pass through, everything else is
percent-encoded byte-by-byte over its UTF-8 encoding, with uppercase hex. -/
def encodeURIComponent (s : String) : String :=
  String.mk ((s.toList.map fun c =>
    if isUnescapedURIChar c then [c]
    else ((utf8EncodeChar c).map fun b => ['%', hexDigitUpper (b / 16), hexDigitUpper (b % 16)]).flatten).flatten)

/-- `nonArrayOrObjectParamToUrlString` of `OpenApiClientUtils.ts`: render one
primitive parameter as `key=value` / `key[]=value`, building the bracketed key
from the accumulated parent keys.  (`parentKeys` entries are already strings;
the source stores numbers, which the template `[${key}]` stringifies.) -/
def nonArrayOrObjectParamToUrlString
    (paramName : String) (paramValue : JSONValue)
    (paramsIsArray : Bool) (parentKeys : List String) : String :=
  let paramKey :=
    if parentKeys.length > 0 then
      let keys := if paramsIsArray then parentKeys else parentKeys ++ [paramName]
      keys.headD "" ++ String.join ((keys.drop 1).map fun k => "[" ++ k ++ "]")
    else paramName
  let encodedParamValue := encodeURIComponent (jsToString paramValue)
  if paramsIsArray then paramKey ++ "[]=" ++ encodedParamValue
  else paramKey ++ "=" ++ encodedParamValue

mutual
/-- `jsonParamsToUrlString` of `OpenApiClientUtils.ts`: bracket-notation query
serialization.  Object/array values recurse with the member name (for objects) or
the element index (for arrays) pushed onto `parentKeys`; primitives render via
`nonArrayOrObjectParamToUrlString`; the member strings are joined with `&`.
The source's push/pop mutation of `parentKeys` nets out to passing
`parentKeys ++ [key]` to the recursive call, which is what this does.
`Object.keys` of a primitive is empty, so primitives at the top render as `""`. -/
def jsonParamsToUrlString : JSONValue → List String → String
  | .obj entries, parentKeys => String.intercalate "&" (objParamStrings entries parentKeys)
  | .arr elems, parentKeys => String.intercalate "&" (arrParamStrings elems 0 parentKeys)
  | _, _ => ""

def objParamStrings : List (String × JSONValue) → List String → List String
  | [], _ => []
  | (paramName, v) :: rest, parentKeys =>
    (match v with
     | .obj es => jsonParamsToUrlString (.obj es) (parentKeys ++ [paramName])
     | .arr es => jsonParamsToUrlString (.arr es) (parentKeys ++ [paramName])
     | prim => nonArrayOrObjectParamToUrlString paramName prim false parentKeys)
      :: objParamStrings rest parentKeys

def arrParamStrings : List JSONValue → Nat → List String → List String
  | [], _, _ => []
  | v :: rest, i, parentKeys =>
    (match v with
     | .obj es => jsonParamsToUrlString (.obj es) (parentKeys ++ [toString i])
     | .arr es => jsonParamsToUrlString (.arr es) (parentKeys ++ [toString i])
     | prim => nonArrayOrObjectParamToUrlString (toString i) prim true parentKeys)
      :: arrParamStrings rest (i + 1) parentKeys
end

/-- JSON string-character escaping as in `JSON.stringify`. -/
def jsonEscapeChar (c : Char) : List Char :=
  if c = '"' then ['\\', '"']
  else if c = '\\' then ['\\', '\\']
  else if c = Char.ofNat 10 then ['\\', 'n']
  else if c = Char.ofNat 13 then ['\\', 'r']
  else if c = Char.ofNat 9 then ['\\', 't']
  else if c = Char.ofNat 8 then ['\\', 'b']
  else if c = Char.ofNat 12 then ['\\', 'f']
  else if c.toNat < 32 then
    ['\\', 'u', '0', '0', hexDigitUpper (c.toNat / 16), hexDigitUpper (c.toNat % 16)]
  else [c]

/-- JSON string literal for `s`. -/
def jsonQuote (s : String) : String :=
  String.mk ('"' :: (s.toList.map jsonEscapeChar).flatten ++ ['"'])

mutual
/-- `JSON.stringify` over `JSONValue` (no spacing, document order). -/
def jsonStringify : JSONValue → String
  | .str s => jsonQuote s
  | .num n => toString n
  | .bool b => if b then "true" else "false"
  | .arr es => "[" ++ String.intercalate "," (jsonStringifyList es) ++ "]"
  | .obj kv => "\x7b" ++ String.intercalate "," (jsonStringifyEntries kv) ++ "\x7d"

def jsonStringifyList : List JSONValue → List String
  | [] => []
  | v :: rest => jsonStringify v :: jsonStringifyList rest

def jsonStringifyEntries : List (String × JSONValue) → List String
  | [] => []
  | (k, v) :: rest => (jsonQuote k ++ ":" ++ jsonStringify v) :: jsonStringifyEntries rest
end

/-- JS truthiness of a `JSONValue` (arrays and objects are always truthy). -/
def JSONValue.isTruthy : JSONValue → Bool
  | .str s => s ≠ ""
  | .num n => n ≠ 0
  | .bool b => b
  | .arr _ => true
  | .obj _ => true

/-- `typeof value === 'object' && Object.keys(value).length === 0`. -/
def JSONValue.isEmptyObjectLike : JSONValue → Bool
  | .arr [] => true
  | .obj [] => true
  | _ => false

/-- `serializeDataAsJsonIfNeeded` of `OpenApiClientUtils.ts`: pass a non-empty
string through, return `undefined` for an empty string or an object/array with no
keys, and `JSON.stringify` everything else. -/
def serializeDataAsJsonIfNeeded (value : JSONValue) : Option String :=
  match value with
  | .str s => if s.length > 0 then some s else none
  | v => if v.isEmptyObjectLike then none else some (jsonStringify v)

/-- `serializeDataAsFormIfNeeded` of `OpenApiClientUtils.ts`: pass a non-empty
string through; otherwise, for truthy non-string data with at least one key,
url-encode it with the same bracket-notation serializer as query strings. -/
def serializeDataAsFormIfNeeded (data : JSONValue) : Option String :=
  match data with
  | .str s => if s.length > 0 then some s else none
  | v => if v.isTruthy && !v.isEmptyObjectLike then some (jsonParamsToUrlString v []) else none

/-! ### Base64 and SHA-256 (Node `Buffer.toString('base64')` and `crypto` collaborators) -/

/-- The standard base64 alphabet, indexed 0–63. -/
def base64Chars : List Char :=
  ['A', 'B', 'C', 'D', 'E', 'F', 'G', 'H', 'I', 'J', 'K', 'L', 'M',
   'N', 'O', 'P', 'Q', 'R', 'S', 'T', 'U', 'V', 'W', 'X', 'Y', 'Z',
   'a', 'b', 'c', 'd', 'e', 'f', 'g', 'h', 'i', 'j', 'k', 'l', 'm',
   'n', 'o', 'p', 'q', 'r', 's', 't', 'u', 'v', 'w', 'x', 'y', 'z',
   '0', '1', '2', '3', '4', '5', '6', '7', '8', '9', '+', '/']

/-- The base64url alphabet: as standard base64 but with `-` and `_` at 62 and 63. -/
def base64UrlChars : List Char :=
  ['A', 'B', 'C', 'D', 'E', 'F', 'G', 'H', 'I', 'J', 'K', 'L', 'M',
   'N', 'O', 'P', 'Q', 'R', 'S', 'T', 'U', 'V', 'W', 'X', 'Y', 'Z',
   'a', 'b', 'c', 'd', 'e', 'f', 'g', 'h', 'i', 'j', 'k', 'l', 'm',
   'n', 'o', 'p', 'q', 'r', 's', 't', 'u', 'v', 'w', 'x', 'y', 'z',
   '0', '1', '2', '3', '4', '5', '6', '7', '8', '9', '-', '_']

/-- Standard base64 digit for an index below 64. -/
def b64c (n : Nat) : Char := base64Chars.getD n 'A'

/-- Base64url digit for an index below 64. -/
def b64u (n : Nat) : Char := base64UrlChars.getD n 'A'

/-- Standard base64 of a byte list, processed in 3-byte groups with `=` padding. -/
def base64EncodeChunks : List Nat → List Char
  | [] => []
  | [b1] => [b64c (b1 / 4), b64c (b1 % 4 * 16), '=', '=']
  | [b1, b2] => [b64c (b1 / 4), b64c (b1 % 4 * 16 + b2 / 16), b64c (b2 % 16 * 4), '=']
  | b1 :: b2 :: b3 :: rest =>
    b64c (b1 / 4) :: b64c (b1 % 4 * 16 + b2 / 16) ::
    b64c (b2 % 16 * 4 + b3 / 64) :: b64c (b3 % 64) :: base64EncodeChunks rest

/-- Node's `buffer.toString('base64')`: standard base64 with padding. -/
def base64Encode (bytes : List Nat) : String :=
  String.mk (base64EncodeChunks bytes)

/-- Direct base64url encoding without padding (the RFC 4648 §5 "URL and filename
safe" alphabet, padding omitted) — stated from the spec's words, for comparison
with the code's `base64URLEncode`. -/
def base64UrlNoPadChunks : List Nat → List Char
  | [] => []
  | [b1] => [b64u (b1 / 4), b64u (b1 % 4 * 16)]
  | [b1, b2] => [b64u (b1 / 4), b64u (b1 % 4 * 16 + b2 / 16), b64u (b2 % 16 * 4)]
  | b1 :: b2 :: b3 :: rest =>
    b64u (b1 / 4) :: b64u (b1 % 4 * 16 + b2 / 16) ::
    b64u (b2 % 16 * 4 + b3 / 64) :: b64u (b3 % 64) :: base64UrlNoPadChunks rest

/-- Base64url without padding, encoded directly from the bytes. -/
def base64UrlNoPadEncode (bytes : List Nat) : String :=
  String.mk (base64UrlNoPadChunks bytes)

/-- The character rewrites of `base64URLEncode` in `OpenApiClientUtils.ts`:
`+` becomes `-` and `/` becomes `_`. -/
def swapBase64Char (c : Char) : Char :=
  if c = '+' then '-' else if c = '/' then '_' else c

/-- `base64URLEncode` of `OpenApiClientUtils.ts`: take the standard base64 of the
buffer, then replace `+` with `-`, `/` with `_`, and delete every `=`. -/
def base64URLEncode (bytes : List Nat) : String :=
  String.mk (((base64EncodeChunks bytes).map swapBase64Char).filter fun c => c ≠ '=')

/-- Reduction modulo 2^32, the word size of SHA-256. -/
def mod32 (x : Nat) : Nat := x % 4294967296

/-- 32-bit right rotation (the input is assumed below 2^32). -/
def rotr32 (n x : Nat) : Nat := mod32 (Nat.lor (Nat.shiftRight x n) (Nat.shiftLeft x (32 - n)))

/-- SHA-256 Σ₀. -/
def bigSigma0 (x : Nat) : Nat := rotr32 2 x ^^^ rotr32 13 x ^^^ rotr32 22 x

/-- SHA-256 Σ₁. -/
def bigSigma1 (x : Nat) : Nat := rotr32 6 x ^^^ rotr32 11 x ^^^ rotr32 25 x

/-- SHA-256 σ₀. -/
def smallSigma0 (x : Nat) : Nat := rotr32 7 x ^^^ rotr32 18 x ^^^ Nat.shiftRight x 3

/-- SHA-256 σ₁. -/
def smallSigma1 (x : Nat) : Nat := rotr32 17 x ^^^ rotr32 19 x ^^^ Nat.shiftRight x 10

/-- SHA-256 choice function. -/
def sha2Ch (x y z : Nat) : Nat := (x &&& y) ^^^ ((x ^^^ 4294967295) &&& z)

/-- SHA-256 majority function. -/
def sha2Maj (x y z : Nat) : Nat := (x &&& y) ^^^ (x &&& z) ^^^ (y &&& z)

/-- Big-endian bytes of a 32-bit word. -/
def be32 (w : Nat) : List Nat :=
  [w / 16777216 % 256, w / 65536 % 256, w / 256 % 256, w % 256]

/-- Big-endian bytes of a 64-bit length field. -/
def be64 (n : Nat) : List Nat :=
  [n / 72057594037927936 % 256, n / 281474976710656 % 256, n / 1099511627776 % 256,
   n / 4294967296 % 256, n / 16777216 % 256, n / 65536 % 256, n / 256 % 256, n % 256]

/-- SHA-256 padding: append `0x80`, zero-fill to 56 mod 64, append the bit length. -/
def sha256Pad (msg : List Nat) : List Nat :=
  let zeros := (64 - (msg.length + 9) % 64) % 64
  msg ++ [128] ++ List.replicate zeros 0 ++ be64 (8 * msg.length)

/-- Split a byte list into 64-byte blocks. -/
def chunks64 : List Nat → List (List Nat)
  | [] => []
  | b :: rest => (b :: rest).take 64 :: chunks64 ((b :: rest).drop 64)
termination_by l => l.length
decreasing_by simp [List.length_drop]; omega

/-- Combine big-endian 4-byte groups into 32-bit words. -/
def bytesToWords32 : List Nat → List Nat
  | b1 :: b2 :: b3 :: b4 :: rest =>
    (b1 * 16777216 + b2 * 65536 + b3 * 256 + b4) :: bytesToWords32 rest
  | _ => []

/-- The SHA-256 round constants. -/
def sha256K : List Nat :=
  [1116352408, 1899447441, 3049323471, 3921009573, 961987163, 1508970993,
   2453635748, 2870763221, 3624381080, 310598401, 607225278, 1426881987,
   1925078388, 2162078206, 2614888103, 3248222580, 3835390401, 4022224774,
   264347078, 604807628, 770255983, 1249150122, 1555081692, 1996064986,
   2554220882, 2821834349, 2952996808, 3210313671, 3336571891, 3584528711,
   113926993, 338241895, 666307205, 773529912, 1294757372, 1396182291,
   1695183700, 1986661051, 2177026350, 2456956037, 2730485921, 2820302411,
   3259730800, 3345764771, 3516065817, 3600352804, 4094571909, 275423344,
   430227734, 506948616, 659060556, 883997877, 958139571, 1322822218,
   1537002063, 1747873779, 1955562222, 2024104815, 2227730452, 2361852424,
   2428436474, 2756734187, 3204031479, 3329325298]

/-- The SHA-256 initial hash value. -/
def sha256H0 : List Nat :=
  [1779033703, 3144134277, 1013904242, 2773480762,
   1359893119, 2600822924, 528734635, 1541459225]

/-- Extend the 16 block words to the 64-word message schedule. -/
def sha256Schedule (ws : List Nat) : List Nat :=
  (List.range 48).foldl
    (fun acc _ =>
      acc ++ [mod32 (smallSigma1 (acc.getD (acc.length - 2) 0) + acc.getD (acc.length - 7) 0 +
        smallSigma0 (acc.getD (acc.length - 15) 0) + acc.getD (acc.length - 16) 0)])
    ws

/-- The eight SHA-256 working variables. -/
structure Sha256State where
  a : Nat
  b : Nat
  c : Nat
  d : Nat
  e : Nat
  f : Nat
  g : Nat
  h : Nat

/-- One SHA-256 compression round. -/
def sha256Round (st : Sha256State) (w k : Nat) : Sha256State :=
  let t1 := mod32 (st.h + bigSigma1 st.e + sha2Ch st.e st.f st.g + k + w)
  let t2 := mod32 (bigSigma0 st.a + sha2Maj st.a st.b st.c)
  { a := mod32 (t1 + t2), b := st.a, c := st.b, d := st.c,
    e := mod32 (st.d + t1), f := st.e, g := st.f, h := st.g }

/-- Compress one 64-byte block into the running hash (eight 32-bit words). -/
def sha256CompressBlock (hs : List Nat) (block : List Nat) : List Nat :=
  let w := sha256Schedule (bytesToWords32 block)
  let init : Sha256State :=
    ⟨hs.getD 0 0, hs.getD 1 0, hs.getD 2 0, hs.getD 3 0,
     hs.getD 4 0, hs.getD 5 0, hs.getD 6 0, hs.getD 7 0⟩
  let fin := (w.zip sha256K).foldl (fun st wk => sha256Round st wk.1 wk.2) init
  [mod32 (hs.getD 0 0 + fin.a), mod32 (hs.getD 1 0 + fin.b), mod32 (hs.getD 2 0 + fin.c),
   mod32 (hs.getD 3 0 + fin.d), mod32 (hs.getD 4 0 + fin.e), mod32 (hs.getD 5 0 + fin.f),
   mod32 (hs.getD 6 0 + fin.g), mod32 (hs.getD 7 0 + fin.h)]

/-- SHA-256 of a byte list (the `crypto.createHash('sha256')` collaborator;
`sha256` in `OpenApiClientUtils.ts` feeds it the UTF-8 bytes of its string). -/
def sha256 (msg : List Nat) : List Nat :=
  (((chunks64 (sha256Pad msg)).foldl sha256CompressBlock sha256H0).map be32).flatten

/-! ### OpenAPI schema data model (`OpenApiSchemaConfiguration.ts`, dereferenced views) -/

/-- An OpenAPI parameter as the factory consumes it: its name, its location
(the source's `in` field, a Lean keyword, hence `inLoc`), and its `required` flag. -/
structure Parameter where
  name : String
  inLoc : String
  required : Option Bool := none

/-- One OAuth2 flow object: the string-valued stage URLs plus the declared scopes
map (scope name, description, in document order). -/
structure OAuthFlow where
  authorizationUrl : Option String := none
  tokenUrl : Option String := none
  refreshUrl : Option String := none
  scopes : Option (List (String × String)) := none

/-- A (dereferenced) security scheme.  The source dispatches on the string `type`
(`oauth2` / `http` / `apiKey` / anything else), reading `scheme` for http,
`name` and `in` (here `inLoc`) for apiKey, and `flows` for oauth2; the unused
fields of other variants are empty. -/
structure SecurityScheme where
  type : String
  scheme : String := ""
  name : String := ""
  inLoc : String := ""
  flows : List (String × OAuthFlow) := []

/-- A security requirement: scheme name to required scopes, in document order
(all schemes of one requirement must be satisfied together). -/
abbrev SecurityRequirement := List (String × List String)

/-- A server variable; the source only reads its `default`. -/
structure ServerVariable where
  default : String

/-- A server entry: URL template plus optional variables (the source's
`variables` field; named `vars` here because `variables` is a Lean token). -/
structure Server where
  url : String
  vars : Option (List (String × ServerVariable)) := none

/-- A request body, reduced to the keys of its content map: the factory only
tests `content?.[type]` for the form/json content types. -/
structure RequestBody where
  content : List String

/-- An operation object, with the fields the executor reads. -/
structure Operation where
  operationId : Option String := none
  parameters : Option (List Parameter) := none
  security : Option (List SecurityRequirement) := none
  requestBody : Option RequestBody := none
  servers : Option (List Server) := none

/-- A path item: its HTTP-method entries in document order, plus its own
`parameters` and `servers` keys (which the method iteration skips, since their
values carry no `operationId`). -/
structure PathItem where
  operations : List (String × Operation) := []
  parameters : Option (List Parameter) := none
  servers : Option (List Server) := none

/-- The dereferenced OpenAPI document: path entries in document order, global
security and servers, and `components.securitySchemes` (defaulted to `{}`). -/
structure DereferencedOpenApi where
  paths : List (String × PathItem) := []
  security : Option (List SecurityRequirement) := none
  servers : Option (List Server) := none
  securitySchemes : List (String × SecurityScheme) := []

/-! ### Client configuration (`OpenApiClientConfiguration.ts`) -/

/-- An apiKey-style credential: a literal string (a resolved promise behaves the
same) or a function of the security name (sync and async alike). -/
inductive ApiKeyCredential where
  | value (s : String)
  | func (f : String → String)

/-- An oauth2 access-token credential: literal, or function of name and scopes. -/
inductive AccessTokenCredential where
  | value (s : String)
  | func (f : String → List String → String)

/-- A bearer-token credential: literal, or zero-argument function. -/
inductive BearerTokenCredential where
  | value (s : String)
  | func (f : Unit → String)

/-- The request-options shape the factory reads from `baseOptions` and the
per-call `options`: an optional `method` override and a headers object.  Other
Axios passthrough options do not interact with the claims. -/
structure AxiosRequestConfig where
  method : Option String := none
  headers : List (String × Option String) := []

/-- `OpenApiClientConfiguration`: the statically declared credential fields plus
`named`, the additional own properties admitted by the interface's index
signature (per-scheme api keys).  A `named` entry with value `none` is a
property set to `null`/`undefined` — visible to `in`, skipped by `??`.
`named` is assumed not to shadow the declared fields. -/
structure OpenApiClientConfiguration where
  accessToken : Option AccessTokenCredential := none
  bearerToken : Option BearerTokenCredential := none
  username : Option String := none
  password : Option String := none
  apiKey : Option ApiKeyCredential := none
  basePath : Option String := none
  baseOptions : Option AxiosRequestConfig := none
  named : List (String × Option ApiKeyCredential) := []

/-- JS `key in configuration`: an own property exists under that key, either a
dynamic `named` entry or a declared field that has been set. -/
def configHasKey (cfg : OpenApiClientConfiguration) (key : String) : Bool :=
  hasEntry cfg.named key ||
  (key == "apiKey" && cfg.apiKey.isSome) ||
  (key == "username" && cfg.username.isSome) ||
  (key == "password" && cfg.password.isSome) ||
  (key == "accessToken" && cfg.accessToken.isSome) ||
  (key == "bearerToken" && cfg.bearerToken.isSome) ||
  (key == "basePath" && cfg.basePath.isSome) ||
  (key == "baseOptions" && cfg.baseOptions.isSome)

/-- JS `configuration[key]` read as an apiKey-style credential: a present
`named` entry wins (a nullish one reads as `none`, letting `??` fall through);
otherwise the string-valued declared fields are visible.  A scheme named after
`accessToken`/`bearerToken`/`baseOptions` (credentials of other shapes) is
outside this model. -/
def configIndexApiKey (cfg : OpenApiClientConfiguration) (key : String) :
    Option ApiKeyCredential :=
  match lookupEntry cfg.named key with
  | some v => v
  | none =>
    if key = "apiKey" then cfg.apiKey
    else if key = "username" then cfg.username.map ApiKeyCredential.value
    else if key = "password" then cfg.password.map ApiKeyCredential.value
    else if key = "basePath" then cfg.basePath.map ApiKeyCredential.value
    else none

/-- Resolve an apiKey-style credential: a function is invoked with the security
name, a literal is used as-is (`await` of a value or promise). -/
def resolveApiKeyCredential : ApiKeyCredential → String → String
  | .value s, _ => s
  | .func f, name => f name

/-- `getAccessToken`: invoke a function credential with `(name, scopes)`, else
use the literal value. -/
def getAccessToken (cfg : OpenApiClientConfiguration) (name : String)
    (scopes : List String) : Option String :=
  cfg.accessToken.map fun
    | .value s => s
    | .func f => f name scopes

/-- `getBearerToken`: invoke a zero-argument function credential, else the literal. -/
def getBearerToken (cfg : OpenApiClientConfiguration) : Option String :=
  cfg.bearerToken.map fun
    | .value s => s
    | .func f => f ()

/-- `getApiKey` of `OpenApiAxiosParamFactory.ts`:
`configuration[apiKeyName] ?? configuration.apiKey`, then call it with the
scheme name if it is a function, else use it as a value. -/
def getApiKey (cfg : OpenApiClientConfiguration) (apiKeyName : String) : Option String :=
  match configIndexApiKey cfg apiKeyName with
  | some configurationValue => some (resolveApiKeyCredential configurationValue apiKeyName)
  | none => cfg.apiKey.map fun c => resolveApiKeyCredential c apiKeyName

/-! ### `OpenApiAxiosParamFactory` -/

/-- The operation-plus-path information the executor hands to the factory. -/
structure OperationWithPathInfo where
  operationId : Option String := none
  parameters : Option (List Parameter) := none
  security : Option (List SecurityRequirement) := none
  requestBody : Option RequestBody := none
  pathName : String
  pathReqMethod : String
  overrideBasePath : Option String := none

/-- The factory's read-only fields, as set by its constructor. -/
structure OpenApiAxiosParamFactory where
  pathName : String
  pathReqMethod : String
  security : Option (List SecurityRequirement) := none
  parameters : Option (List Parameter) := none
  requestBody : Option RequestBody := none
  configuration : OpenApiClientConfiguration
  securitySchemes : List (String × SecurityScheme) := []

/-- The factory's mutable working state: the path being substituted into and the
query/header/body accumulators.  Header values are `Option String` so that an
assignment of an undefined api key stays distinguishable from a string. -/
structure FactoryState where
  pathName : String
  queryParameters : List (String × JSONValue) := []
  headerParameters : List (String × Option String) := []
  requestBodyArgs : List (String × JSONValue) := []

/-- The accumulators a fresh factory starts a `createParams` call with. -/
def initialFactoryState (f : OpenApiAxiosParamFactory) : FactoryState :=
  { pathName := f.pathName }

/-- The per-scheme-name credential test inside
`findSecurityReqMatchingConfiguration`: the named scheme must exist, and the
configuration must carry the credential its type needs (oauth2 → `accessToken`;
http/basic → `username` and `password`; http/bearer → `bearerToken`; apiKey →
a property under the scheme's declared name or a generic `apiKey`). -/
def schemeNameSatisfiedByConfiguration (cfg : OpenApiClientConfiguration)
    (securitySchemes : List (String × SecurityScheme)) (schemeName : String) : Bool :=
  match lookupEntry securitySchemes schemeName with
  | some scheme =>
    if scheme.type = "oauth2" then cfg.accessToken.isSome
    else if scheme.type = "http" then
      if scheme.scheme = "basic" then cfg.username.isSome && cfg.password.isSome
      else if scheme.scheme = "bearer" then cfg.bearerToken.isSome
      else false
    else if scheme.type = "apiKey" then
      configHasKey cfg scheme.name || cfg.apiKey.isSome
    else false
  | none => false

/-- A requirement is satisfiable when every scheme name it lists passes
`schemeNameSatisfiedByConfiguration`. -/
def securityReqSatisfiedByConfiguration (cfg : OpenApiClientConfiguration)
    (securitySchemes : List (String × SecurityScheme)) (securityReq : SecurityRequirement) : Bool :=
  securityReq.all fun kv => schemeNameSatisfiedByConfiguration cfg securitySchemes kv.1

/-- `findSecurityReqMatchingConfiguration`: the first requirement alternative, in
document order, whose every scheme is satisfiable. -/
def findSecurityReqMatchingConfiguration (cfg : OpenApiClientConfiguration)
    (securitySchemes : List (String × SecurityScheme))
    (securityReqs : List SecurityRequirement) : Option SecurityRequirement :=
  securityReqs.find? (securityReqSatisfiedByConfiguration cfg securitySchemes)

/-- `setApiKeyToHeaderOrQueryObject`: place the resolved api key under the
scheme's declared name in the headers or the query parameters per the scheme's
`in`, and reject any other location.  An undefined key placed in the query
serializes as the string `"undefined"` (JS `encodeURIComponent(undefined)`). -/
def setApiKeyToHeaderOrQueryObject (cfg : OpenApiClientConfiguration)
    (st : FactoryState) (securityScheme : SecurityScheme) : Except String FactoryState :=
  let apiKey := getApiKey cfg securityScheme.name
  if securityScheme.inLoc = "header" then
    .ok { st with headerParameters := setEntry st.headerParameters securityScheme.name apiKey }
  else if securityScheme.inLoc = "query" then
    .ok { st with queryParameters := (setEntry st.queryParameters securityScheme.name
      (.str (jsShow apiKey))) }
  else
    .error ("apiKey security scheme in " ++ securityScheme.inLoc ++ " is not supported.")

/-- `setOAuthToHeaderObject`: `Authorization: Bearer <resolved access token>`. -/
def setOAuthToHeaderObject (cfg : OpenApiClientConfiguration) (st : FactoryState)
    (name : String) (scopes : List String) : FactoryState :=
  { st with headerParameters := (setEntry st.headerParameters "Authorization"
      (some ("Bearer " ++ jsShow (getAccessToken cfg name scopes)))) }

/-- `setBearerAuthToHeaderObject`: `Authorization: Bearer <resolved bearer token>`. -/
def setBearerAuthToHeaderObject (cfg : OpenApiClientConfiguration)
    (st : FactoryState) : FactoryState :=
  { st with headerParameters := (setEntry st.headerParameters "Authorization"
      (some ("Bearer " ++ jsShow (getBearerToken cfg)))) }

/-- `setBasicAuthToHeaderObject`: base64URL-encode the UTF-8 bytes of
`` `${username}:${password}` `` and set `Authorization: Basic <encoded>`. -/
def setBasicAuthToHeaderObject (cfg : OpenApiClientConfiguration)
    (st : FactoryState) : FactoryState :=
  { st with headerParameters := (setEntry st.headerParameters "Authorization"
      (some ("Basic " ++
        base64URLEncode (utf8Bytes (jsShow cfg.username ++ ":" ++ jsShow cfg.password))))) }

/-- One arm of the `setSecurityFromSecurityRequirement` loop: dispatch on the
looked-up scheme's type.  The switch has no default case, and the http branch
ignores schemes other than basic/bearer, so those leave the state unchanged; a
missing scheme cannot occur for a requirement that matched (the JS would crash). -/
def applySecurityScheme (f : OpenApiAxiosParamFactory) (st : FactoryState)
    (schemeName : String) (scopes : List String) : Except String FactoryState :=
  match lookupEntry f.securitySchemes schemeName with
  | none => .ok st
  | some scheme =>
    if scheme.type = "oauth2" then
      .ok (setOAuthToHeaderObject f.configuration st schemeName scopes)
    else if scheme.type = "http" then
      if scheme.scheme = "basic" then .ok (setBasicAuthToHeaderObject f.configuration st)
      else if scheme.scheme = "bearer" then .ok (setBearerAuthToHeaderObject f.configuration st)
      else .ok st
    else if scheme.type = "apiKey" then
      setApiKeyToHeaderOrQueryObject f.configuration st scheme
    else .ok st

/-- `setSecurityFromSecurityRequirement`: apply every scheme of the chosen
requirement, in document order. -/
def setSecurityFromSecurityRequirement (f : OpenApiAxiosParamFactory)
    (st : FactoryState) (securityReq : SecurityRequirement) : Except String FactoryState :=
  securityReq.foldlM (fun s kv => applySecurityScheme f s kv.1 kv.2) st

/-- `setSecurityIfNeeded`: with a non-empty security list, apply the first
satisfiable requirement, or fail (with the source's literal message, including
its misspelling) when none is satisfiable; otherwise do nothing. -/
def setSecurityIfNeeded (f : OpenApiAxiosParamFactory)
    (st : FactoryState) : Except String FactoryState :=
  match f.security with
  | some securityReqs =>
    if securityReqs.length > 0 then
      match findSecurityReqMatchingConfiguration f.configuration f.securitySchemes securityReqs with
      | some matchingSecurityReq => setSecurityFromSecurityRequirement f st matchingSecurityReq
      | none => .error "Could not satisfy security requirments with the provided configuration."
    else .ok st
  | none => .ok st

/-- Replace every occurrence of a (non-empty) pattern, left to right. -/
def replaceAllCore (pattern replacement : List Char) : List Char → List Char
  | [] => []
  | c :: cs =>
    if 0 < pattern.length && pattern.isPrefixOf (c :: cs) then
      replacement ++ replaceAllCore pattern replacement ((c :: cs).drop pattern.length)
    else
      c :: replaceAllCore pattern replacement cs
termination_by l => l.length
decreasing_by
  · rename_i h
    simp only [Bool.and_eq_true, decide_eq_true_eq] at h
    simp [List.length_drop]
    omega
  · simp

/-- String-level all-occurrence replacement (the source's global regex replace of
an escaped literal pattern). -/
def replaceAllSubstring (s pattern replacement : String) : String :=
  String.mk (replaceAllCore pattern.toList replacement.toList s.toList)

/-- `replacePathTemplateInUrlPath`: substitute every literal `{name}` token. -/
def replacePathTemplateInUrlPath (pathName parameterName value : String) : String :=
  replaceAllSubstring pathName ("\x7b" ++ parameterName ++ "\x7d") value

/-- The header parameters `addParameterToHeaders` silently drops. -/
def IGNORED_HEADER_PARAMETERS : List String :=
  ["accept", "content-type", "authorization"]

/-- `addParameterToHeaders`: set the header unless its lowercased name is ignored. -/
def addParameterToHeaders (headerParameters : List (String × Option String))
    (parameterName : String) (value : String) : List (String × Option String) :=
  if IGNORED_HEADER_PARAMETERS.contains parameterName.toLower then headerParameters
  else setEntry headerParameters parameterName (some value)

/-- The predicate of `assertAllRequiredParametersArePresent`: `required === true`
and `args` has no own property under the parameter's name. -/
def unsetRequiredParameter (args : List (String × JSONValue)) (parameter : Parameter) : Bool :=
  parameter.required == some true && !hasEntry args parameter.name

/-- `assertAllRequiredParametersArePresent`, as the first offending parameter
(the source throws on it). -/
def assertAllRequiredParametersArePresent (parameters : List Parameter)
    (args : List (String × JSONValue)) : Option Parameter :=
  parameters.find? (unsetRequiredParameter args)

/-- One iteration of the `addParametersToUrlAndHeader` loop over `args`: place
the value per the matching parameter's location (query map, path substitution,
headers), reject unsupported locations, and accumulate unmatched keys into the
request-body bag.  Path and header placement coerce the value to a string as the
JS string contexts do. -/
def placeArgument (f : OpenApiAxiosParamFactory) (st : FactoryState)
    (kv : String × JSONValue) : Except String FactoryState :=
  match f.parameters.bind fun ps => ps.find? fun param => param.name == kv.1 with
  | some parameter =>
    if parameter.inLoc = "query" then
      .ok { st with queryParameters := setEntry st.queryParameters kv.1 kv.2 }
    else if parameter.inLoc = "path" then
      .ok { st with pathName := replacePathTemplateInUrlPath st.pathName parameter.name (jsToString kv.2) }
    else if parameter.inLoc = "header" then
      .ok { st with headerParameters := addParameterToHeaders st.headerParameters parameter.name (jsToString kv.2) }
    else
      .error ("Parameters with \"in\" set to " ++ parameter.inLoc ++ " are not supported.")
  | none => .ok { st with requestBodyArgs := setEntry st.requestBodyArgs kv.1 kv.2 }

/-- `addParametersToUrlAndHeader`: when a parameter list is defined, first check
all required parameters are present (failing with the source's message on the
first unset one, before any placement happens); then place every entry of `args`
in document order. -/
def addParametersToUrlAndHeader (f : OpenApiAxiosParamFactory) (st : FactoryState)
    (args : List (String × JSONValue)) : Except String FactoryState :=
  match f.parameters with
  | some parameters =>
    match assertAllRequiredParametersArePresent parameters args with
    | some unsetParam =>
      .error ("Parameter " ++ unsetParam.name ++ " is required for this operation.")
    | none => args.foldlM (placeArgument f) st
  | none => args.foldlM (placeArgument f) st

/-- Does the operation's request body declare this content type
(`requestBody?.content?.[contentType]` truthiness)? -/
def contentDeclares (requestBody : Option RequestBody) (contentType : String) : Bool :=
  match requestBody with
  | some rb => rb.content.contains contentType
  | none => false

/-- The form content type constant. -/
def FORM_CONTENT_TYPE : String := "application/x-www-form-urlencoded"

/-- The JSON content type constant. -/
def JSON_CONTENT_TYPE : String := "application/json"

/-- `getContentType`: form-urlencoded exactly when the request body declares the
form content type and not also the JSON one; JSON otherwise. -/
def getContentType (requestBody : Option RequestBody) : String :=
  if contentDeclares requestBody FORM_CONTENT_TYPE &&
     !contentDeclares requestBody JSON_CONTENT_TYPE
  then FORM_CONTENT_TYPE else JSON_CONTENT_TYPE

/-- `getAndSerializeRequestData`: form-encode or JSON-encode the body bag per the
chosen content type. -/
def getAndSerializeRequestData (contentType : String)
    (requestBodyArgs : List (String × JSONValue)) : Option String :=
  if contentType = FORM_CONTENT_TYPE then
    serializeDataAsFormIfNeeded (.obj requestBodyArgs)
  else
    serializeDataAsJsonIfNeeded (.obj requestBodyArgs)

/-- The assembled Axios request options: method, body data, headers. -/
structure RequestOptions where
  method : String
  data : Option String := none
  headers : List (String × Option String) := []

/-- `baseOptions?.headers`, defaulted. -/
def baseOptionsHeaders (cfg : OpenApiClientConfiguration) : List (String × Option String) :=
  match cfg.baseOptions with
  | some b => b.headers
  | none => []

/-- The headers object literal of `constructRequestOptions`:
`{...headerParameters, ...baseOptions?.headers, ...options.headers}`. -/
def mergedRequestHeaders (f : OpenApiAxiosParamFactory) (st : FactoryState)
    (options : AxiosRequestConfig) : List (String × Option String) :=
  spreadMerge (spreadMerge st.headerParameters (baseOptionsHeaders f.configuration)) options.headers

/-- JS truthiness of the serialized body (`undefined` and `""` are falsy). -/
def jsTruthyStr : Option String → Bool
  | some s => s ≠ ""
  | none => false

/-- `constructRequestOptions`: spread `baseOptions` then per-call `options` over
the method default, attach the serialized data and merged headers, and set
`Content-Type` to the chosen content type only when the data is truthy. -/
def constructRequestOptions (f : OpenApiAxiosParamFactory) (st : FactoryState)
    (options : AxiosRequestConfig) : RequestOptions :=
  let contentType := getContentType f.requestBody
  let data := getAndSerializeRequestData contentType st.requestBodyArgs
  let requestOptions : RequestOptions :=
    { method := (options.method <|> (f.configuration.baseOptions.bind (·.method))).getD f.pathReqMethod
      data := data
      headers := mergedRequestHeaders f st options }
  if jsTruthyStr data then
    { requestOptions with
      headers := setEntry requestOptions.headers "Content-Type" (some contentType) }
  else requestOptions

/-- The factory's result: the path-with-query URL plus the request options. -/
structure AxiosRequestParams where
  url : String
  options : RequestOptions

/-- `createParams`: negotiate security, place the arguments, serialize the query
accumulator, and assemble the request options. -/
def createParams (f : OpenApiAxiosParamFactory) (args : List (String × JSONValue))
    (options : AxiosRequestConfig) : Except String AxiosRequestParams := do
  let st ← setSecurityIfNeeded f (initialFactoryState f)
  let st ← addParametersToUrlAndHeader f st args
  let urlQuery := jsonParamsToUrlString (.obj st.queryParameters) []
  pure { url := st.pathName ++ (if urlQuery.length > 0 then "?" ++ urlQuery else "")
         options := constructRequestOptions f st options }

/-! ### `OpenApiOperationExecutor` -/

/-- Strip all trailing slashes (`url.replace(/\/+$/u, '')`). -/
def dropTrailingSlashes (s : String) : String :=
  String.mk (s.toList.reverse.dropWhile (fun c => c = '/')).reverse

/-- `replaceServerVariablesWithDefaults`: substitute each `{variable}` token with
the variable's declared default, folding over the entries in document order. -/
def replaceServerVariablesWithDefaults (url : String)
    (serverVariables : List (String × ServerVariable)) : String :=
  serverVariables.foldl
    (fun result kv => replaceAllSubstring result ("\x7b" ++ kv.1 ++ "\x7d") kv.2.default)
    url

/-- `constructBasePath`: the first server's URL without trailing slashes, with
variable defaults substituted when variables are declared.  (Callers only invoke
this on non-empty server lists.) -/
def constructBasePath (servers : List Server) : String :=
  match servers with
  | [] => ""
  | firstServer :: _ =>
    let withoutTrailingSlashes := dropTrailingSlashes firstServer.url
    match firstServer.vars with
    | some serverVariables =>
      replaceServerVariablesWithDefaults withoutTrailingSlashes serverVariables
    | none => withoutTrailingSlashes

/-- `constructBasePathFromGlobalServers`: the global servers' base path, or `""`
when the spec declares no (or empty) servers. -/
def constructBasePathFromGlobalServers (spec : DereferencedOpenApi) : String :=
  match spec.servers with
  | some servers => if servers.length > 0 then constructBasePath servers else ""
  | none => ""

/-- `constructServerPathForOperation`: a server override from a non-empty
`servers` field, else `undefined`. -/
def constructServerPathForOperation (servers : Option (List Server)) : Option String :=
  match servers with
  | some servers => if servers.length > 0 then some (constructBasePath servers) else none
  | none => none

/-- `addParametersIfNotDefined`: start from the operation's own parameters and
append each path-item parameter that no operation parameter already covers under
the same `(name, in)` pair (the membership test is against the operation's
original list, as in the source). -/
def addParametersIfNotDefined (parameters additionalParameters : List Parameter) :
    List Parameter :=
  additionalParameters.foldl
    (fun newParameters additionalParameter =>
      if parameters.any fun param =>
          param.name == additionalParameter.name && param.inLoc == additionalParameter.inLoc
      then newParameters
      else newParameters ++ [additionalParameter])
    parameters

/-- The `OperationWithPathInfo` the lookup returns for a match: the operation
with merged parameters, security defaulted to the spec's global security, the
path/method coordinates, and the operation-or-path-item server override. -/
def operationWithPathInfo (spec : DereferencedOpenApi) (pathName pathReqMethod : String)
    (pathItem : PathItem) (operation : Operation) : OperationWithPathInfo :=
  { operationId := operation.operationId
    parameters := some (addParametersIfNotDefined (operation.parameters.getD [])
      (pathItem.parameters.getD []))
    security := operation.security <|> spec.security
    requestBody := operation.requestBody
    pathName := pathName
    pathReqMethod := pathReqMethod
    overrideBasePath := (constructServerPathForOperation operation.servers <|>
      constructServerPathForOperation pathItem.servers) }

/-- The inner loop of the lookup: first method entry of the path item whose
operation carries the wanted `operationId`. -/
def findOperationInPathItem (pathItem : PathItem) (operationId : String) :
    Option (String × Operation) :=
  pathItem.operations.find? fun e => e.2.operationId == some operationId

/-- The outer loop of the lookup: first path entry, in document order, containing
a matching method entry. -/
def findOperationInPaths :
    List (String × PathItem) → String → Option (String × PathItem × String × Operation)
  | [], _ => none
  | (pathName, pathItem) :: rest, operationId =>
    match findOperationInPathItem pathItem operationId with
    | some (pathReqMethod, operation) => some (pathName, pathItem, pathReqMethod, operation)
    | none => findOperationInPaths rest operationId

/-- `getOperationWithPathInfoMatchingOperationId`: return the info for the first
match, or fail with the source's literal message. -/
def getOperationWithPathInfoMatchingOperationId (spec : DereferencedOpenApi)
    (operationId : String) : Except String OperationWithPathInfo :=
  match findOperationInPaths spec.paths operationId with
  | some (pathName, pathItem, pathReqMethod, operation) =>
    .ok (operationWithPathInfo spec pathName pathReqMethod pathItem operation)
  | none =>
    .error ("No OpenApi operation with operationId " ++ operationId ++ " was found in the spec.")

/-- The factory constructor call in `sendOperationRequest`. -/
def mkParamFactory (info : OperationWithPathInfo) (cfg : OpenApiClientConfiguration)
    (securitySchemes : List (String × SecurityScheme)) : OpenApiAxiosParamFactory :=
  { pathName := info.pathName
    pathReqMethod := info.pathReqMethod
    security := info.security
    parameters := info.parameters
    requestBody := info.requestBody
    configuration := cfg
    securitySchemes := securitySchemes }

/-- JS falsiness of an optional string (`undefined` and `""`), as tested by
`configuration.basePath ||= ...`. -/
def jsFalsyString : Option String → Bool
  | none => true
  | some s => s = ""

/-- The request descriptor handed to the transport: final URL plus options. -/
structure RequestDescriptor where
  url : String
  options : RequestOptions

/-- Modelled from the spec: `OpenApiClientAxiosApi` is not under `src/`; per
§4.4/§6 of the design it sends the request whose URL is the effective base path
concatenated with the factory's `{path}{?query}` URL, with the factory's request
options passed through unchanged. -/
def sendRequestThroughAxiosApi (basePath : String) (params : AxiosRequestParams) :
    RequestDescriptor :=
  { url := basePath ++ params.url, options := params.options }

/-- `executeOperation`: look up the operation, assign the caller-visible
`configuration.basePath` when it is falsy (`||=`) to the operation override or
the global-servers base path, then run the factory and hand the result to the
transport.  The pair's second component is the configuration object as the
caller sees it after the call (the `||=` mutation persists even when a later
step fails). -/
def executeOperation (spec : DereferencedOpenApi) (configuration : OpenApiClientConfiguration)
    (operationId : String) (args : List (String × JSONValue)) (options : AxiosRequestConfig) :
    Except String RequestDescriptor × OpenApiClientConfiguration :=
  match getOperationWithPathInfoMatchingOperationId spec operationId with
  | .error e => (.error e, configuration)
  | .ok operationAndPathInfo =>
    let configuration2 :=
      if jsFalsyString configuration.basePath then
        { configuration with basePath := (some (operationAndPathInfo.overrideBasePath.getD
            (constructBasePathFromGlobalServers spec))) }
      else configuration
    match createParams (mkParamFactory operationAndPathInfo configuration2 spec.securitySchemes)
        args options with
    | .error e => (.error e, configuration2)
    | .ok params =>
      (.ok (sendRequestThroughAxiosApi (configuration2.basePath.getD "") params), configuration2)

/-! ### `executeSecuritySchemeStage` -/

/-- The args `constructAuthorizationUrl` reads (`redirect_uri`, `client_id`,
`response_type`). -/
structure AuthorizationUrlArgs where
  redirect_uri : String
  client_id : String
  response_type : String

/-- The authorization-stage result: the fresh PKCE verifier plus the URL. -/
structure CodeAuthorizationUrlResponse where
  codeVerifier : String
  authorizationUrl : String

/-- The `params` object `constructAuthorizationUrl` builds before serializing:
`redirect_uri`/`client_id`/`response_type` from the args, then
`code_challenge_method=S256` and `code_challenge = base64url(sha256(codeVerifier))`
exactly when `response_type === 'code'`, then `scope` as the space-joined declared
scope keys whenever the flow carries a `scopes` object
(`Object.keys(scopes).join(' ')`). -/
def authorizationUrlParams (args : AuthorizationUrlArgs) (codeVerifier : String)
    (scopes : Option (List (String × String))) : List (String × JSONValue) :=
  let params := [("redirect_uri", JSONValue.str args.redirect_uri),
                 ("client_id", JSONValue.str args.client_id),
                 ("response_type", JSONValue.str args.response_type)]
  let params :=
    if args.response_type = "code" then
      params ++ [("code_challenge_method", JSONValue.str "S256"),
                 ("code_challenge",
                  JSONValue.str (base64URLEncode (sha256 (utf8Bytes codeVerifier))))]
    else params
  match scopes with
  | some declaredScopes =>
    params ++ [("scope", JSONValue.str (String.intercalate " " (declaredScopes.map Prod.fst)))]
  | none => params

/-- `constructAuthorizationUrl`: the params object above, serialized with the
query serializer onto the base URL. -/
def constructAuthorizationUrl (authorizationUrlBase codeVerifier : String)
    (args : AuthorizationUrlArgs) (scopes : Option (List (String × String))) : String :=
  authorizationUrlBase ++ "?" ++
    jsonParamsToUrlString (.obj (authorizationUrlParams args codeVerifier scopes)) []

/-- `constructAuthorizationUrlStageInfo`: base64url-encode the fresh random bytes
(`crypto.randomBytes(32)`, passed in here) into the code verifier and build the
authorization URL from it. -/
def constructAuthorizationUrlStageInfo (authorizationUrlBase : String)
    (args : AuthorizationUrlArgs) (scopes : Option (List (String × String)))
    (randomBytes : List Nat) : CodeAuthorizationUrlResponse :=
  let codeVerifier := base64URLEncode randomBytes
  { codeVerifier := codeVerifier
    authorizationUrl := constructAuthorizationUrl authorizationUrlBase codeVerifier args scopes }

/-- What a security-scheme stage produces: the authorization stage returns the
URL info without any HTTP request; the token stage delegates to the request
pipeline over a synthetic token operation (recorded here as the delegation with
its resolved token URL — no claim concerns that request's content). -/
inductive SecuritySchemeStageResult where
  | authorizationUrlInfo (info : CodeAuthorizationUrlResponse)
  | tokenRequest (tokenUrl : String) (flow : String)

/-- `flowConfig[stage]` restricted to string-valued stage keys: the `scopes` key
holds an object, which the source's `typeof !== 'string'` validation rejects
just like an absent key. -/
def flowStageValue (flowConfig : OAuthFlow) (stage : String) : Option String :=
  if stage = "authorizationUrl" then flowConfig.authorizationUrl
  else if stage = "tokenUrl" then flowConfig.tokenUrl
  else if stage = "refreshUrl" then flowConfig.refreshUrl
  else none

/-- `executeSecuritySchemeStage`: validate scheme / type / flow / stage with the
source's literal messages, then dispatch — the `authorizationUrl` stage returns
the PKCE info purely, the `tokenUrl` stage delegates to the request pipeline,
anything else is unsupported. -/
def executeSecuritySchemeStage (spec : DereferencedOpenApi) (scheme flow stage : String)
    (args : AuthorizationUrlArgs) (randomBytes : List Nat) :
    Except String SecuritySchemeStageResult :=
  match lookupEntry spec.securitySchemes scheme with
  | none => .error ("No security scheme called " ++ scheme ++ " found.")
  | some schemeConfig =>
    if schemeConfig.type ≠ "oauth2" then
      .error ("Execution of " ++ schemeConfig.type ++ " security schemes is not supported.")
    else
      match lookupEntry schemeConfig.flows flow with
      | none =>
        .error ("No flow called " ++ flow ++ " found in the " ++ scheme ++ " security scheme.")
      | some flowConfig =>
        match flowStageValue flowConfig stage with
        | none =>
          .error ("No stage called " ++ stage ++ " found in " ++ flow ++ " flow of the " ++
            scheme ++ " security scheme.")
        | some stageUrl =>
          if stageUrl = "" then
            .error ("No stage called " ++ stage ++ " found in " ++ flow ++ " flow of the " ++
              scheme ++ " security scheme.")
          else if stage = "authorizationUrl" then
            .ok (.authorizationUrlInfo
              (constructAuthorizationUrlStageInfo stageUrl args flowConfig.scopes randomBytes))
          else if stage = "tokenUrl" then
            .ok (.tokenRequest stageUrl flow)
          else
            .error (stage ++ " stage found in " ++ flow ++ " flow of the " ++ scheme ++
              " security scheme is not supported.")

/-! ### Statement-level views and concrete instances used by the theorems -/

/-- The path table flattened to `(path, item, method, operation)` tuples in
document order: paths first, then the methods within each path item.  The
lookup's nested loops traverse exactly this order. -/
def flattenPathOperations (paths : List (String × PathItem)) :
    List (String × PathItem × String × Operation) :=
  (paths.map fun pi => pi.2.operations.map fun mo => (pi.1, pi.2, mo.1, mo.2)).flatten

/-- An `http`/`basic` security scheme definition. -/
def basicHttpScheme : SecurityScheme := { type := "http", scheme := "basic" }

/-- A configuration carrying basic-auth credentials. -/
def c1Configuration : OpenApiClientConfiguration :=
  { username := some "user", password := some "pass" }

/-- A factory whose operation lists an unsatisfiable oauth2 alternative before a
satisfiable basic alternative. -/
def c1Factory : OpenApiAxiosParamFactory :=
  { pathName := "/example/api/path"
    pathReqMethod := "get"
    security := some [[("oAuth", ["scope.read"])], [("basicAuth", [])]]
    configuration := c1Configuration
    securitySchemes := [("oAuth", { type := "oauth2" }), ("basicAuth", basicHttpScheme)] }

/-- The fresh state of `c1Factory`. -/
def c1State : FactoryState := { pathName := "/example/api/path" }

/-- A factory for an operation whose request body declares only the form content
type. -/
def c2Factory : OpenApiAxiosParamFactory :=
  { pathName := "/token"
    pathReqMethod := "post"
    requestBody := some { content := [FORM_CONTENT_TYPE] }
    configuration := {} }

/-- A body-argument state for `c2Factory`. -/
def c2State : FactoryState :=
  { pathName := "/token"
    requestBodyArgs := [("grant_type", .str "client_credentials"), ("scope", .str "read:events")] }

/-- Basic-auth credentials whose `username:password` is not a multiple of three
bytes, so its standard base64 carries padding. -/
def c3Configuration : OpenApiClientConfiguration :=
  { username := some "ab", password := some "cd" }

/-- A factory whose only security alternative is the basic scheme. -/
def c3Factory : OpenApiAxiosParamFactory :=
  { pathName := "/secure"
    pathReqMethod := "get"
    security := some [[("basicAuth", [])]]
    configuration := c3Configuration
    securitySchemes := [("basicAuth", basicHttpScheme)] }

/-- The fresh state of `c3Factory`. -/
def c3State : FactoryState := { pathName := "/secure" }

/-- Two operations carrying the same operationId. -/
def c4OperationA : Operation := { operationId := some "DuplicateOp" }

/-- The later duplicate. -/
def c4OperationB : Operation := { operationId := some "DuplicateOp" }

/-- The first path item of `c4Spec`. -/
def c4PathItemA : PathItem := { operations := [("get", c4OperationA)] }

/-- The second path item of `c4Spec`. -/
def c4PathItemB : PathItem := { operations := [("post", c4OperationB)] }

/-- A spec in which two path/method pairs share one operationId. -/
def c4Spec : DereferencedOpenApi :=
  { paths := [("/first", c4PathItemA), ("/second", c4PathItemB)] }

/-- A required query parameter. -/
def c5Parameter : Parameter := { name := "param1", inLoc := "query", required := some true }

/-- A factory whose operation requires `param1`. -/
def c5Factory : OpenApiAxiosParamFactory :=
  { pathName := "/p"
    pathReqMethod := "get"
    parameters := some [c5Parameter]
    configuration := {} }

/-- The fresh state of `c5Factory`. -/
def c5State : FactoryState := { pathName := "/p" }

/-- An authorization-code flow with one declared scope. -/
def c7Flow : OAuthFlow :=
  { authorizationUrl := some "https://auth.example.com/authorize"
    tokenUrl := some "https://auth.example.com/token"
    scopes := some [("files.read", "Read files")] }

/-- An oauth2 scheme carrying `c7Flow`. -/
def c7Scheme : SecurityScheme :=
  { type := "oauth2", flows := [("authorizationCode", c7Flow)] }

/-- A spec declaring only the oauth2 scheme. -/
def c7Spec : DereferencedOpenApi := { securitySchemes := [("oAuth", c7Scheme)] }

/-- PKCE authorization arguments with `response_type = 'code'`. -/
def c7Args : AuthorizationUrlArgs :=
  { redirect_uri := "https://example.com/redirect"
    client_id := "abc123"
    response_type := "code" }

/-- Thirty-two concrete "random" bytes standing in for `crypto.randomBytes(32)`. -/
def c7RandomBytes : List Nat := List.range 32

/-- A one-operation spec with no security, parameters, or servers. -/
def c8Operation : Operation := { operationId := some "op1" }

/-- The spec holding `c8Operation` under `GET /p`. -/
def c8Spec : DereferencedOpenApi :=
  { paths := [("/p", { operations := [("get", c8Operation)] })] }

/-- The request descriptor both calls of `executeOperation` produce on `c8Spec`. -/
def c8Descriptor : RequestDescriptor :=
  { url := "/p", options := { method := "get", data := none, headers := [] } }

/-- The configuration as mutated by the first call (base path resolved to `""`). -/
def c8Configuration1 : OpenApiClientConfiguration := { basePath := some "" }

/-- A global server whose URL carries a trailing slash. -/
def c9Server : Server := { url := "https://api.example.com/" }

/-- A spec with a global server, for base-path assignment. -/
def c9Spec : DereferencedOpenApi :=
  { paths := [("/p", { operations := [("get", c8Operation)] })]
    servers := some [c9Server] }

/-- A configuration with a name-keyed function credential, a nullish name-keyed
entry, and a generic `apiKey`. -/
def c10Configuration : OpenApiClientConfiguration :=
  { apiKey := some (.value "generic-key")
    named := [("myKey", some (.func fun n => n ++ "-key")), ("nullKey", none)] }

/-! ### Helper lemmas -/

/-- Reading back a just-assigned property returns its value. -/
theorem lookupEntry_setEntry_self {α : Type} (l : List (String × α)) (k : String) (v : α) :
    lookupEntry (setEntry l k v) k = some v := by
  induction l with
  | nil => simp [setEntry, lookupEntry]
  | cons hd tl ih =>
    obtain ⟨k0, w⟩ := hd
    by_cases h : k0 = k
    · simp [setEntry, lookupEntry, h]
    · simp [setEntry, lookupEntry, h, ih]

/-- `find?` returns the first hit: the list splits into an all-miss prefix, the
hit, and a suffix. -/
theorem find?_first {α : Type} (p : α → Bool) :
    ∀ (l : List α) (a : α), l.find? p = some a →
      ∃ pre post, l = pre ++ a :: post ∧ (∀ b ∈ pre, p b = false) ∧ p a = true
  | [], a, h => by simp [List.find?] at h
  | x :: xs, a, h => by
    by_cases hx : p x
    · rw [List.find?_cons_of_pos _ hx] at h
      cases h
      exact ⟨[], xs, rfl, by simp, hx⟩
    · rw [List.find?_cons_of_neg _ (by simpa using hx)] at h
      obtain ⟨pre, post, heq, hpre, ha⟩ := find?_first p xs a h
      refine ⟨x :: pre, post, by simp [heq], ?_, ha⟩
      intro b hb
      rcases List.mem_cons.mp hb with hb | hb
      · subst hb; simpa using hx
      · exact hpre b hb

/-- The characters of the standard base64 alphabet map to the base64url alphabet
under the `+`/`-` and `/`/`_` swaps. -/
theorem swapBase64Char_b64c (n : Nat) (h : n < 64) : swapBase64Char (b64c n) = b64u n := by
  have hall : ∀ i : Fin 64, swapBase64Char (b64c i.val) = b64u i.val := by decide
  exact hall ⟨n, h⟩

/-- No base64url digit is the padding character. -/
theorem b64u_ne_pad (n : Nat) (h : n < 64) : b64u n ≠ '=' := by
  have hall : ∀ i : Fin 64, b64u i.val ≠ '=' := by decide
  exact hall ⟨n, h⟩

/-- Over bytes, swapping `+`/`/` and deleting `=` in the padded standard base64
yields exactly the direct unpadded base64url encoding. -/
theorem base64Chunks_swap_strip :
    ∀ (bytes : List Nat), (∀ b ∈ bytes, b < 256) →
      ((base64EncodeChunks bytes).map swapBase64Char).filter (fun c => c ≠ '=') =
        base64UrlNoPadChunks bytes
  | [], _ => rfl
  | [b1], hb => by
    have h1 : b1 < 256 := hb b1 (by simp)
    have e1 := swapBase64Char_b64c (b1 / 4) (by omega)
    have e2 := swapBase64Char_b64c (b1 % 4 * 16) (by omega)
    have n1 := b64u_ne_pad (b1 / 4) (by omega)
    have n2 := b64u_ne_pad (b1 % 4 * 16) (by omega)
    have sp : swapBase64Char '=' = '=' := rfl
    simp only [base64EncodeChunks, base64UrlNoPadChunks, List.map_cons, List.map_nil, e1, e2, sp]
    simp [List.filter, n1, n2]
  | [b1, b2], hb => by
    have h1 : b1 < 256 := hb b1 (by simp)
    have h2 : b2 < 256 := hb b2 (by simp)
    have e1 := swapBase64Char_b64c (b1 / 4) (by omega)
    have e2 := swapBase64Char_b64c (b1 % 4 * 16 + b2 / 16) (by omega)
    have e3 := swapBase64Char_b64c (b2 % 16 * 4) (by omega)
    have n1 := b64u_ne_pad (b1 / 4) (by omega)
    have n2 := b64u_ne_pad (b1 % 4 * 16 + b2 / 16) (by omega)
    have n3 := b64u_ne_pad (b2 % 16 * 4) (by omega)
    have sp : swapBase64Char '=' = '=' := rfl
    simp only [base64EncodeChunks, base64UrlNoPadChunks, List.map_cons, List.map_nil,
      e1, e2, e3, sp]
    simp [List.filter, n1, n2, n3]
  | b1 :: b2 :: b3 :: rest, hb => by
    have h1 : b1 < 256 := hb b1 (by simp)
    have h2 : b2 < 256 := hb b2 (by simp)
    have h3 : b3 < 256 := hb b3 (by simp)
    have e1 := swapBase64Char_b64c (b1 / 4) (by omega)
    have e2 := swapBase64Char_b64c (b1 % 4 * 16 + b2 / 16) (by omega)
    have e3 := swapBase64Char_b64c (b2 % 16 * 4 + b3 / 64) (by omega)
    have e4 := swapBase64Char_b64c (b3 % 64) (by omega)
    have n1 := b64u_ne_pad (b1 / 4) (by omega)
    have n2 := b64u_ne_pad (b1 % 4 * 16 + b2 / 16) (by omega)
    have n3 := b64u_ne_pad (b2 % 16 * 4 + b3 / 64) (by omega)
    have n4 := b64u_ne_pad (b3 % 64) (by omega)
    have ih := base64Chunks_swap_strip rest (fun b hbm => hb b (by simp [hbm]))
    simp only [base64EncodeChunks, base64UrlNoPadChunks, List.map_cons, e1, e2, e3, e4]
    simp [List.filter, n1, n2, n3, n4]
    simpa using ih

/-- The code's `base64URLEncode` equals the direct unpadded base64url encoding. -/
theorem base64URLEncode_eq_urlNoPad (bytes : List Nat) (hb : ∀ b ∈ bytes, b < 256) :
    base64URLEncode bytes = base64UrlNoPadEncode bytes := by
  unfold base64URLEncode base64UrlNoPadEncode
  rw [base64Chunks_swap_strip bytes hb]

/-- Every Unicode code point is below `0x110000`. -/
theorem char_toNat_lt (c : Char) : c.toNat < 1114112 := by
  rcases c.valid with h | ⟨_, h2⟩
  · have : c.val.toNat < 55296 := h
    simp [Char.toNat]; omega
  · have : c.val.toNat < 1114112 := h2
    simp [Char.toNat]; omega

/-- UTF-8 encoding produces bytes. -/
theorem utf8EncodeChar_lt_256 (c : Char) : ∀ b ∈ utf8EncodeChar c, b < 256 := by
  intro b hbmem
  have hc : c.toNat < 1114112 := char_toNat_lt c
  unfold utf8EncodeChar at hbmem
  split_ifs at hbmem <;> simp at hbmem <;> omega

/-- The UTF-8 bytes of a string are bytes. -/
theorem utf8Bytes_lt_256 (s : String) : ∀ b ∈ utf8Bytes s, b < 256 := by
  intro b hb
  unfold utf8Bytes at hb
  rw [List.mem_flatten] at hb
  obtain ⟨sub, hsub, hbsub⟩ := hb
  rw [List.mem_map] at hsub
  obtain ⟨c, _, rfl⟩ := hsub
  exact utf8EncodeChar_lt_256 c b hbsub

/-! ### The claims -/

/-- **C1.** For every operation whose resolved security requirement list is
non-empty, `setSecurityIfNeeded` selects the first requirement alternative, in
document order, for which every scheme name has a scheme definition and a usable
credential in the configuration (`securityReqSatisfiedByConfiguration`, whose
per-scheme test requires `accessToken` for oauth2, `username` and `password`
for http/basic, `bearerToken` for http/bearer, and a credential keyed by the
scheme's declared name or a generic `apiKey` for apiKey), and applies every
scheme of that alternative (`setSecurityFromSecurityRequirement` folds over all
of them); if no alternative is satisfiable, the call fails with an error instead
of proceeding unauthenticated. -/
theorem C1_security_negotiation_first_satisfiable
    (f : OpenApiAxiosParamFactory) (st : FactoryState) (securityReqs : List SecurityRequirement)
    (hsec : f.security = some securityReqs) (hne : securityReqs ≠ []) :
    ((∀ r ∈ securityReqs,
        securityReqSatisfiedByConfiguration f.configuration f.securitySchemes r = false) →
      setSecurityIfNeeded f st =
        .error "Could not satisfy security requirments with the provided configuration.")
    ∧ (∀ r, findSecurityReqMatchingConfiguration f.configuration f.securitySchemes securityReqs
          = some r →
        securityReqSatisfiedByConfiguration f.configuration f.securitySchemes r = true
        ∧ (∃ pre post, securityReqs = pre ++ r :: post ∧
            ∀ q ∈ pre,
              securityReqSatisfiedByConfiguration f.configuration f.securitySchemes q = false)
        ∧ setSecurityIfNeeded f st = setSecurityFromSecurityRequirement f st r)
    ∧ (∀ r : SecurityRequirement,
        securityReqSatisfiedByConfiguration f.configuration f.securitySchemes r = true ↔
        ∀ kv ∈ r,
          schemeNameSatisfiedByConfiguration f.configuration f.securitySchemes kv.1 = true) := by
  have hlen : 0 < securityReqs.length := List.length_pos.mpr hne
  refine ⟨?_, ?_, ?_⟩
  · intro hall
    have hnone : findSecurityReqMatchingConfiguration f.configuration f.securitySchemes
        securityReqs = none := by
      unfold findSecurityReqMatchingConfiguration
      rw [List.find?_eq_none]
      intro x hx
      simp [hall x hx]
    unfold setSecurityIfNeeded
    rw [hsec]
    simp [hlen, hnone]
  · intro r hfind
    have hsat : securityReqSatisfiedByConfiguration f.configuration f.securitySchemes r = true :=
      List.find?_some hfind
    obtain ⟨pre, post, heq, hpre, _⟩ := find?_first _ _ _ hfind
    refine ⟨hsat, ⟨pre, post, heq, hpre⟩, ?_⟩
    unfold setSecurityIfNeeded
    rw [hsec]
    simp [hlen, hfind]
  · intro r
    unfold securityReqSatisfiedByConfiguration
    rw [List.all_eq_true]

/-- Witness for C1: on `c1Factory` the unsatisfiable oauth2 alternative is
skipped and the satisfiable basic alternative is the one applied. -/
theorem C1_security_negotiation_first_satisfiable_witness :
    findSecurityReqMatchingConfiguration c1Factory.configuration c1Factory.securitySchemes
        [[("oAuth", ["scope.read"])], [("basicAuth", [])]] = some [("basicAuth", [])]
    ∧ setSecurityIfNeeded c1Factory c1State =
        setSecurityFromSecurityRequirement c1Factory c1State [("basicAuth", [])] :=
  ⟨rfl,
   ((C1_security_negotiation_first_satisfiable c1Factory c1State
      [[("oAuth", ["scope.read"])], [("basicAuth", [])]] rfl
      (List.cons_ne_nil _ _)).2.1 [("basicAuth", [])] rfl).2.2⟩

/-- **C2.** The request body bag is form-encoded (with the same bracket-notation
serializer as query strings) exactly when the operation's request body declares
the form content type and not also JSON, and is JSON-serialized otherwise; the
`Content-Type` header of the final options is set — to the content type chosen
this way — only when a non-empty body was produced, the headers otherwise being
exactly the merged security/parameter, base, and per-call headers. -/
theorem C2_content_type_and_body_serialization
    (f : OpenApiAxiosParamFactory) (st : FactoryState) (options : AxiosRequestConfig) :
    (contentDeclares f.requestBody FORM_CONTENT_TYPE = true →
     contentDeclares f.requestBody JSON_CONTENT_TYPE = false →
      (constructRequestOptions f st options).data =
        serializeDataAsFormIfNeeded (.obj st.requestBodyArgs))
    ∧ ((contentDeclares f.requestBody FORM_CONTENT_TYPE = false ∨
        contentDeclares f.requestBody JSON_CONTENT_TYPE = true) →
      (constructRequestOptions f st options).data =
        serializeDataAsJsonIfNeeded (.obj st.requestBodyArgs))
    ∧ (st.requestBodyArgs ≠ [] →
      serializeDataAsFormIfNeeded (.obj st.requestBodyArgs) =
        some (jsonParamsToUrlString (.obj st.requestBodyArgs) []))
    ∧ (jsTruthyStr (constructRequestOptions f st options).data = true →
      lookupEntry (constructRequestOptions f st options).headers "Content-Type" =
        some (some (getContentType f.requestBody)))
    ∧ (jsTruthyStr (constructRequestOptions f st options).data = false →
      (constructRequestOptions f st options).headers = mergedRequestHeaders f st options) := by
  have hdata : (constructRequestOptions f st options).data =
      getAndSerializeRequestData (getContentType f.requestBody) st.requestBodyArgs := by
    unfold constructRequestOptions
    dsimp only
    split <;> rfl
  refine ⟨?_, ?_, ?_, ?_, ?_⟩
  · intro hform hjson
    have hct : getContentType f.requestBody = FORM_CONTENT_TYPE := by
      unfold getContentType
      simp [hform, hjson]
    rw [hdata, hct]
    unfold getAndSerializeRequestData
    simp
  · intro hdisj
    have hct : getContentType f.requestBody = JSON_CONTENT_TYPE := by
      unfold getContentType
      rcases hdisj with h | h <;> simp [h]
    rw [hdata, hct]
    unfold getAndSerializeRequestData
    simp [JSON_CONTENT_TYPE, FORM_CONTENT_TYPE]
  · intro hne
    obtain ⟨a, t, h⟩ := List.exists_cons_of_ne_nil hne
    rw [h]
    simp [serializeDataAsFormIfNeeded, JSONValue.isTruthy, JSONValue.isEmptyObjectLike]
  · intro htruthy
    rw [hdata] at htruthy
    unfold constructRequestOptions
    dsimp only
    split
    · exact lookupEntry_setEntry_self _ _ _
    · rename_i hcond
      rw [htruthy] at hcond
      simp at hcond
  · intro hfalsy
    rw [hdata] at hfalsy
    unfold constructRequestOptions
    dsimp only
    split
    · rename_i hcond
      rw [hfalsy] at hcond
      simp at hcond
    · rfl

/-- Witness for C2: on `c2Factory` (form-only request body) the body is
form-encoded and, being non-empty, yields the form `Content-Type` header. -/
theorem C2_content_type_and_body_serialization_witness :
    contentDeclares c2Factory.requestBody FORM_CONTENT_TYPE = true
    ∧ contentDeclares c2Factory.requestBody JSON_CONTENT_TYPE = false
    ∧ (constructRequestOptions c2Factory c2State {}).data =
        serializeDataAsFormIfNeeded (.obj c2State.requestBodyArgs)
    ∧ jsTruthyStr (constructRequestOptions c2Factory c2State {}).data = true
    ∧ lookupEntry (constructRequestOptions c2Factory c2State {}).headers "Content-Type" =
        some (some (getContentType c2Factory.requestBody)) :=
  ⟨rfl, rfl,
   (C2_content_type_and_body_serialization c2Factory c2State {}).1 rfl rfl,
   by decide,
   (C2_content_type_and_body_serialization c2Factory c2State {}).2.2.2.1 (by decide)⟩

/-- **C3 (counterexample).** The claim asserts the Authorization header is
`'Basic '` followed by the *standard* base64 of `username:password`, but the
code encodes with `base64URLEncode`, which strips `=` padding (and swaps
`+`/`/`): with username `"ab"` and password `"cd"` the assembled request carries
`Basic YWI6Y2Q`, while the standard base64 of `ab:cd` is `YWI6Y2Q=`. -/
theorem C3_basic_auth_counterexample :
    (createParams c3Factory [] {}).map
        (fun params => lookupEntry params.options.headers "Authorization") =
      .ok (some (some "Basic YWI6Y2Q"))
    ∧ "Basic " ++ base64Encode (utf8Bytes ("ab" ++ ":" ++ "cd")) = "Basic YWI6Y2Q="
    ∧ ("Basic YWI6Y2Q" : String) ≠ "Basic " ++ base64Encode (utf8Bytes ("ab" ++ ":" ++ "cd")) :=
  ⟨rfl, rfl, by decide⟩

/-- **C3 (amended).** When the chosen security requirement names an http scheme
with scheme `basic` and the configuration supplies both username and password,
the applied scheme sets the Authorization header to `'Basic '` followed by the
*unpadded base64url* encoding — standard base64 with `+` replaced by `-`, `/`
by `_`, and the `=` padding removed — of the UTF-8 bytes of
`username:password`. -/
theorem C3_basic_auth_header_amended
    (f : OpenApiAxiosParamFactory) (st : FactoryState) (schemeName : String)
    (scopes : List String) (scheme : SecurityScheme) (u p : String)
    (hscheme : lookupEntry f.securitySchemes schemeName = some scheme)
    (htype : scheme.type = "http") (hbasic : scheme.scheme = "basic")
    (hu : f.configuration.username = some u) (hp : f.configuration.password = some p) :
    applySecurityScheme f st schemeName scopes = .ok
      { st with headerParameters := (setEntry st.headerParameters "Authorization"
          (some ("Basic " ++ base64UrlNoPadEncode (utf8Bytes (u ++ ":" ++ p))))) } := by
  unfold applySecurityScheme
  rw [hscheme]
  simp only [htype, hbasic]
  unfold setBasicAuthToHeaderObject
  rw [hu, hp]
  simp only [jsShow]
  rw [base64URLEncode_eq_urlNoPad _ (utf8Bytes_lt_256 _)]
  simp

/-- Witness for the amended C3 on `c3Factory` (username `ab`, password `cd`). -/
theorem C3_basic_auth_header_amended_witness :
    lookupEntry c3Factory.securitySchemes "basicAuth" = some basicHttpScheme
    ∧ c3Factory.configuration.username = some "ab"
    ∧ c3Factory.configuration.password = some "cd"
    ∧ applySecurityScheme c3Factory c3State "basicAuth" [] = .ok
        { c3State with headerParameters := (setEntry c3State.headerParameters "Authorization"
            (some ("Basic " ++ base64UrlNoPadEncode (utf8Bytes ("ab" ++ ":" ++ "cd"))))) } :=
  ⟨rfl, rfl, rfl,
   C3_basic_auth_header_amended c3Factory c3State "basicAuth" [] basicHttpScheme "ab" "cd"
     rfl rfl rfl rfl rfl⟩

/-- The nested path/method loops of the lookup traverse exactly the flattened
document order. -/
theorem findOperationInPaths_eq_flat (operationId : String) :
    ∀ paths : List (String × PathItem),
      findOperationInPaths paths operationId =
        (flattenPathOperations paths).find?
          (fun e => e.2.2.2.operationId == some operationId)
  | [] => rfl
  | (pathName, pathItem) :: rest => by
    unfold findOperationInPaths flattenPathOperations
    simp only [List.map_cons, List.flatten_cons]
    rw [List.find?_append]
    have hmap : (pathItem.operations.map fun mo => (pathName, pathItem, mo.1, mo.2)).find?
        (fun e => e.2.2.2.operationId == some operationId) =
        (pathItem.operations.find? fun mo => mo.2.operationId == some operationId).map
          (fun mo => (pathName, pathItem, mo.1, mo.2)) := by
      rw [List.find?_map]
      rfl
    rw [hmap]
    unfold findOperationInPathItem
    cases hfind : pathItem.operations.find? fun mo => mo.2.operationId == some operationId with
    | none =>
      simp only [Option.map_none', Option.none_or]
      exact findOperationInPaths_eq_flat operationId rest
    | some mo =>
      simp only [Option.map_some']
      rfl

/-- **C4.** For every operationId that occurs in no path/method pair of the
spec, the lookup fails with the source's literal not-found message; and when
several operations carry the same operationId, the one found first — iterating
path entries in document order and, within each path item, HTTP-method entries
in document order — is the one returned for execution, together with an
all-miss prefix certificate. -/
theorem C4_operation_lookup_first_match_or_error
    (spec : DereferencedOpenApi) (operationId : String) :
    ((flattenPathOperations spec.paths).find?
        (fun e => e.2.2.2.operationId == some operationId) = none →
      getOperationWithPathInfoMatchingOperationId spec operationId =
        .error ("No OpenApi operation with operationId " ++ operationId ++
          " was found in the spec."))
    ∧ (∀ pathName pathItem pathReqMethod operation,
        (flattenPathOperations spec.paths).find?
            (fun e => e.2.2.2.operationId == some operationId) =
          some (pathName, pathItem, pathReqMethod, operation) →
        operation.operationId = some operationId
        ∧ (∃ pre post, flattenPathOperations spec.paths =
              pre ++ (pathName, pathItem, pathReqMethod, operation) :: post ∧
            ∀ e ∈ pre, (e.2.2.2.operationId == some operationId) = false)
        ∧ getOperationWithPathInfoMatchingOperationId spec operationId =
            .ok (operationWithPathInfo spec pathName pathReqMethod pathItem operation)) := by
  constructor
  · intro hnone
    unfold getOperationWithPathInfoMatchingOperationId
    rw [findOperationInPaths_eq_flat, hnone]
  · intro pathName pathItem pathReqMethod operation hfind
    have hmatch := List.find?_some hfind
    obtain ⟨pre, post, heq, hpre, _⟩ := find?_first _ _ _ hfind
    refine ⟨by simpa using hmatch, ⟨pre, post, heq, hpre⟩, ?_⟩
    unfold getOperationWithPathInfoMatchingOperationId
    rw [findOperationInPaths_eq_flat, hfind]

/-- Witness for C4: on `c4Spec`, where `/first` (GET) and `/second` (POST) share
the operationId, the first path's operation is the one returned. -/
theorem C4_operation_lookup_first_match_or_error_witness :
    (flattenPathOperations c4Spec.paths).find?
        (fun e => e.2.2.2.operationId == some "DuplicateOp") =
      some ("/first", c4PathItemA, "get", c4OperationA)
    ∧ getOperationWithPathInfoMatchingOperationId c4Spec "DuplicateOp" =
        .ok (operationWithPathInfo c4Spec "/first" "get" c4PathItemA c4OperationA) :=
  ⟨rfl,
   ((C4_operation_lookup_first_match_or_error c4Spec "DuplicateOp").2
      "/first" c4PathItemA "get" c4OperationA rfl).2.2⟩

/-- **C5.** If the resolved operation defines a parameter list and some parameter
with `required = true` has no corresponding own key in `args`, the call fails
with `Parameter {name} is required for this operation.` for the first such
parameter — and since the whole call returns that error (for an arbitrary
incoming state), the failure happens before any argument is placed into the
query, path, headers, or body. -/
theorem C5_missing_required_parameter_rejected
    (f : OpenApiAxiosParamFactory) (st : FactoryState) (args : List (String × JSONValue))
    (parameters : List Parameter)
    (hp : f.parameters = some parameters)
    (h : ∃ p ∈ parameters, p.required = some true ∧ hasEntry args p.name = false) :
    ∃ p0, assertAllRequiredParametersArePresent parameters args = some p0
      ∧ p0.required = some true ∧ hasEntry args p0.name = false
      ∧ (∃ pre post, parameters = pre ++ p0 :: post ∧
          ∀ q ∈ pre, unsetRequiredParameter args q = false)
      ∧ addParametersToUrlAndHeader f st args =
          .error ("Parameter " ++ p0.name ++ " is required for this operation.") := by
  obtain ⟨p, hmem, hreq, hkey⟩ := h
  have hsome : (parameters.find? (unsetRequiredParameter args)).isSome := by
    rw [List.find?_isSome]
    exact ⟨p, hmem, by simp [unsetRequiredParameter, hreq, hkey]⟩
  obtain ⟨p0, hfind⟩ := Option.isSome_iff_exists.mp hsome
  have hp0 := List.find?_some hfind
  simp only [unsetRequiredParameter, Bool.and_eq_true, beq_iff_eq,
    Bool.not_eq_true'] at hp0
  obtain ⟨pre, post, heq, hpre, _⟩ := find?_first _ _ _ hfind
  refine ⟨p0, hfind, hp0.1, hp0.2, ⟨pre, post, heq, hpre⟩, ?_⟩
  unfold addParametersToUrlAndHeader assertAllRequiredParametersArePresent
  rw [hp]
  simp [hfind]

/-- Witness for C5: `c5Factory` requires `param1`, and with empty `args` the
call rejects with the literal message. -/
theorem C5_missing_required_parameter_rejected_witness :
    c5Factory.parameters = some [c5Parameter]
    ∧ addParametersToUrlAndHeader c5Factory c5State [] =
        .error ("Parameter " ++ "param1" ++ " is required for this operation.") := by
  obtain ⟨p0, hfind, _, _, _, herr⟩ :=
    C5_missing_required_parameter_rejected c5Factory c5State [] [c5Parameter] rfl
      ⟨c5Parameter, List.Mem.head _, rfl, rfl⟩
  have heval : assertAllRequiredParametersArePresent [c5Parameter] [] = some c5Parameter := rfl
  rw [heval] at hfind
  injection hfind with hp0
  subst hp0
  exact ⟨rfl, herr⟩

/-- **C6.** The query serializer maps the specification's example object to
exactly the expected string, preserving key encounter order, indexing nested
arrays by position, and percent-encoding each scalar individually. -/
theorem C6_query_serialization_example :
    jsonParamsToUrlString (.obj
      [("param1", .str "value1"),
       ("param2", .arr [.num 1, .num 2]),
       ("param3", .obj [("param4", .bool true)]),
       ("param5", .arr [.obj [("param6", .str "value6")]])]) [] =
      "param1=value1&param2[]=1&param2[]=2&param3[param4]=true&param5[0][param6]=value6" := by
  decide

/-- **C7.** Executing the `authorizationUrl` stage of an oauth2 scheme whose flow
defines that stage returns — without any HTTP request (the `authorizationUrlInfo`
outcome) — a freshly derived `codeVerifier` (the base64url of the random bytes)
and the URL `{base}?{queryString}` over the params object, which always carries
`redirect_uri`, `client_id`, and `response_type` from the args, carries
`code_challenge_method=S256` and `code_challenge = base64url(sha256(codeVerifier))`
exactly when `args.response_type = 'code'`, and appends `scope` as the
space-joined keys of the flow's declared scopes exactly when the flow declares a
scopes object. -/
theorem C7_authorization_url_stage
    (spec : DereferencedOpenApi) (scheme flow : String) (args : AuthorizationUrlArgs)
    (randomBytes : List Nat) (schemeConfig : SecurityScheme) (flowConfig : OAuthFlow)
    (url : String)
    (h1 : lookupEntry spec.securitySchemes scheme = some schemeConfig)
    (h2 : schemeConfig.type = "oauth2")
    (h3 : lookupEntry schemeConfig.flows flow = some flowConfig)
    (h4 : flowConfig.authorizationUrl = some url)
    (h5 : url ≠ "") :
    executeSecuritySchemeStage spec scheme flow "authorizationUrl" args randomBytes =
      .ok (.authorizationUrlInfo
        { codeVerifier := base64URLEncode randomBytes
          authorizationUrl := (url ++ "?" ++
            jsonParamsToUrlString
              (.obj (authorizationUrlParams args (base64URLEncode randomBytes)
                flowConfig.scopes)) []) })
    ∧ (∀ (codeVerifier : String) (scopes : Option (List (String × String))),
        ("redirect_uri", JSONValue.str args.redirect_uri) ∈
          authorizationUrlParams args codeVerifier scopes
        ∧ ("client_id", JSONValue.str args.client_id) ∈
          authorizationUrlParams args codeVerifier scopes
        ∧ ("response_type", JSONValue.str args.response_type) ∈
          authorizationUrlParams args codeVerifier scopes
        ∧ ((("code_challenge_method", JSONValue.str "S256") ∈
              authorizationUrlParams args codeVerifier scopes
            ∧ ("code_challenge",
                JSONValue.str (base64URLEncode (sha256 (utf8Bytes codeVerifier)))) ∈
              authorizationUrlParams args codeVerifier scopes)
            ↔ args.response_type = "code")
        ∧ (∀ declaredScopes, scopes = some declaredScopes →
            ("scope", JSONValue.str (String.intercalate " " (declaredScopes.map Prod.fst))) ∈
              authorizationUrlParams args codeVerifier scopes)
        ∧ (scopes = none →
            ∀ s, ("scope", JSONValue.str s) ∉ authorizationUrlParams args codeVerifier scopes)) := by
  constructor
  · simp [executeSecuritySchemeStage, h1, h2, h3, h4, h5, flowStageValue,
      constructAuthorizationUrlStageInfo, constructAuthorizationUrl]
  · intro codeVerifier scopes
    by_cases hc : args.response_type = "code" <;>
      cases scopes <;>
        simp [authorizationUrlParams, hc]

/-- Witness for C7 on `c7Spec` with `response_type = 'code'` and concrete random
bytes. -/
theorem C7_authorization_url_stage_witness :
    lookupEntry c7Spec.securitySchemes "oAuth" = some c7Scheme
    ∧ c7Scheme.type = "oauth2"
    ∧ lookupEntry c7Scheme.flows "authorizationCode" = some c7Flow
    ∧ c7Flow.authorizationUrl = some "https://auth.example.com/authorize"
    ∧ executeSecuritySchemeStage c7Spec "oAuth" "authorizationCode" "authorizationUrl"
        c7Args c7RandomBytes =
      .ok (.authorizationUrlInfo
        { codeVerifier := base64URLEncode c7RandomBytes
          authorizationUrl := ("https://auth.example.com/authorize" ++ "?" ++
            jsonParamsToUrlString (.obj (authorizationUrlParams c7Args
              (base64URLEncode c7RandomBytes) c7Flow.scopes)) []) }) :=
  ⟨rfl, rfl, rfl, rfl,
   (C7_authorization_url_stage c7Spec "oAuth" "authorizationCode" c7Args c7RandomBytes
      c7Scheme c7Flow "https://auth.example.com/authorize" rfl rfl rfl rfl (by decide)).1⟩

/-- **C8.** Two successful calls of `executeOperation` with the same operationId,
args, and options against the same spec — the second running on the
configuration object as the first left it (the `basePath ||=` write being its
only mutation) — produce identical request descriptors, and the second call
leaves the configuration unchanged.  Credentials are literals or pure functions
by construction of the embedding. -/
theorem C8_repeat_execution_identical_descriptors
    (spec : DereferencedOpenApi) (cfg : OpenApiClientConfiguration) (operationId : String)
    (args : List (String × JSONValue)) (options : AxiosRequestConfig)
    (r1 r2 : RequestDescriptor) (cfg1 cfg2 : OpenApiClientConfiguration)
    (h1 : executeOperation spec cfg operationId args options = (.ok r1, cfg1))
    (h2 : executeOperation spec cfg1 operationId args options = (.ok r2, cfg2)) :
    r1 = r2 ∧ cfg2 = cfg1 := by
  unfold executeOperation at h1 h2
  cases hlook : getOperationWithPathInfoMatchingOperationId spec operationId with
  | error e =>
    simp only [hlook] at h1
    exact absurd (congrArg Prod.fst h1) (by simp)
  | ok info =>
    simp only [hlook] at h1 h2
    by_cases hfal : jsFalsyString cfg.basePath = true
    · rw [if_pos hfal] at h1
      cases hcp : createParams (mkParamFactory info
          { cfg with basePath := (some (info.overrideBasePath.getD
              (constructBasePathFromGlobalServers spec))) } spec.securitySchemes) args options with
      | error e2 =>
        simp only [hcp] at h1
        exact absurd (congrArg Prod.fst h1) (by simp)
      | ok params =>
        simp only [hcp, Prod.mk.injEq] at h1
        obtain ⟨h1a, h1b⟩ := h1
        have hsame : (if jsFalsyString cfg1.basePath = true then
            { cfg1 with basePath := (some (info.overrideBasePath.getD
                (constructBasePathFromGlobalServers spec))) }
          else cfg1) = cfg1 := by
          rw [← h1b]
          by_cases hR : jsFalsyString
              ({ cfg with basePath := (some (info.overrideBasePath.getD
                  (constructBasePathFromGlobalServers spec))) }
                : OpenApiClientConfiguration).basePath = true
          · rw [if_pos hR]
          · rw [if_neg hR]
        rw [hsame] at h2
        rw [← h1b] at h2
        simp only [hcp, Prod.mk.injEq] at h2
        obtain ⟨h2a, h2b⟩ := h2
        have hr : r1 = r2 := by
          rw [← Except.ok.inj h1a, ← Except.ok.inj h2a]
        refine ⟨hr, ?_⟩
        rw [← h2b, h1b]
    · rw [if_neg hfal] at h1
      cases hcp : createParams (mkParamFactory info cfg spec.securitySchemes) args options with
      | error e2 =>
        simp only [hcp] at h1
        exact absurd (congrArg Prod.fst h1) (by simp)
      | ok params =>
        simp only [hcp, Prod.mk.injEq] at h1
        obtain ⟨h1a, h1b⟩ := h1
        rw [← h1b] at h2
        rw [if_neg hfal] at h2
        simp only [hcp, Prod.mk.injEq] at h2
        obtain ⟨h2a, h2b⟩ := h2
        have hr : r1 = r2 := by
          rw [← Except.ok.inj h1a, ← Except.ok.inj h2a]
        refine ⟨hr, ?_⟩
        rw [← h2b, h1b]

/-- Witness for C8: both calls on `c8Spec` produce `c8Descriptor`, the first
setting `basePath` to `""` and the second leaving the configuration unchanged. -/
theorem C8_repeat_execution_identical_descriptors_witness :
    executeOperation c8Spec {} "op1" [] {} = (.ok c8Descriptor, c8Configuration1)
    ∧ executeOperation c8Spec c8Configuration1 "op1" [] {} = (.ok c8Descriptor, c8Configuration1)
    ∧ c8Descriptor = c8Descriptor :=
  ⟨rfl, rfl,
   (C8_repeat_execution_identical_descriptors c8Spec {} "op1" [] {}
      c8Descriptor c8Descriptor c8Configuration1 c8Configuration1 rfl rfl).1⟩

/-- **C9.** `executeOperation` writes to the caller-supplied configuration:
whenever `basePath` is undefined or empty at call time (and the operation
lookup succeeds), the configuration the caller sees after the call carries the
resolved base path — the operation's or path item's server override when
present, otherwise the base path built from the spec's global servers (itself
`""` without servers); a non-empty `basePath` leaves the configuration exactly
as it was; and in every case no field other than `basePath` is modified. -/
theorem C9_base_path_assignment_frame
    (spec : DereferencedOpenApi) (cfg : OpenApiClientConfiguration) (operationId : String)
    (args : List (String × JSONValue)) (options : AxiosRequestConfig)
    (info : OperationWithPathInfo)
    (hinfo : getOperationWithPathInfoMatchingOperationId spec operationId = .ok info) :
    ((cfg.basePath = none ∨ cfg.basePath = some "") →
      (executeOperation spec cfg operationId args options).2.basePath =
        some (info.overrideBasePath.getD (constructBasePathFromGlobalServers spec)))
    ∧ ((∃ s, cfg.basePath = some s ∧ s ≠ "") →
      (executeOperation spec cfg operationId args options).2 = cfg)
    ∧ (executeOperation spec cfg operationId args options).2.accessToken = cfg.accessToken
    ∧ (executeOperation spec cfg operationId args options).2.bearerToken = cfg.bearerToken
    ∧ (executeOperation spec cfg operationId args options).2.username = cfg.username
    ∧ (executeOperation spec cfg operationId args options).2.password = cfg.password
    ∧ (executeOperation spec cfg operationId args options).2.apiKey = cfg.apiKey
    ∧ (executeOperation spec cfg operationId args options).2.baseOptions = cfg.baseOptions
    ∧ (executeOperation spec cfg operationId args options).2.named = cfg.named := by
  have hsnd : (executeOperation spec cfg operationId args options).2 =
      (if jsFalsyString cfg.basePath = true then
        { cfg with basePath := (some (info.overrideBasePath.getD
            (constructBasePathFromGlobalServers spec))) }
       else cfg) := by
    unfold executeOperation
    simp only [hinfo]
    split <;> rfl
  refine ⟨?_, ?_, ?_, ?_, ?_, ?_, ?_, ?_, ?_⟩
  · intro hfal
    have hb : jsFalsyString cfg.basePath = true := by
      rcases hfal with h | h <;> simp [jsFalsyString, h]
    rw [hsnd, if_pos hb]
  · rintro ⟨s, hs, hne⟩
    have hb : jsFalsyString cfg.basePath = false := by simp [jsFalsyString, hs, hne]
    rw [hsnd, if_neg (by simp [hb])]
  all_goals rw [hsnd]; split <;> rfl

/-- Witness for C9: on `c9Spec` (one global server with a trailing slash) an
initially-unset base path is assigned the resolved one, visibly to the caller. -/
theorem C9_base_path_assignment_frame_witness :
    getOperationWithPathInfoMatchingOperationId c9Spec "op1" =
      .ok (operationWithPathInfo c9Spec "/p" "get"
        { operations := [("get", c8Operation)] } c8Operation)
    ∧ ({} : OpenApiClientConfiguration).basePath = none
    ∧ (executeOperation c9Spec {} "op1" [] {}).2.basePath =
        some ((operationWithPathInfo c9Spec "/p" "get"
            { operations := [("get", c8Operation)] } c8Operation).overrideBasePath.getD
          (constructBasePathFromGlobalServers c9Spec)) :=
  ⟨rfl, rfl,
   (C9_base_path_assignment_frame c9Spec {} "op1" [] {}
      (operationWithPathInfo c9Spec "/p" "get"
        { operations := [("get", c8Operation)] } c8Operation) rfl).1 (Or.inl rfl)⟩

/-- **C10.** `getApiKey` prefers the credential keyed by the scheme's declared
name: a present non-nullish `named` entry is resolved (a function credential is
invoked with the scheme's declared name, a literal is used as-is), and the
generic `apiKey` — itself a literal or function, invoked the same way — is used
exactly when the name-keyed entry is null/undefined or absent (for names not
colliding with the reserved configuration fields the indexer can see). -/
theorem C10_api_key_name_precedence (cfg : OpenApiClientConfiguration) (name : String) :
    (∀ c, lookupEntry cfg.named name = some (some c) →
      getApiKey cfg name = some (resolveApiKeyCredential c name))
    ∧ (∀ f, lookupEntry cfg.named name = some (some (.func f)) →
      getApiKey cfg name = some (f name))
    ∧ (lookupEntry cfg.named name = some none →
      getApiKey cfg name = cfg.apiKey.map fun c => resolveApiKeyCredential c name)
    ∧ (lookupEntry cfg.named name = none → name ≠ "apiKey" → name ≠ "username" →
       name ≠ "password" → name ≠ "basePath" →
      getApiKey cfg name = cfg.apiKey.map fun c => resolveApiKeyCredential c name)
    ∧ (∀ f, cfg.apiKey = some (.func f) → lookupEntry cfg.named name = some none →
      getApiKey cfg name = some (f name)) := by
  refine ⟨?_, ?_, ?_, ?_, ?_⟩
  · intro c h
    unfold getApiKey configIndexApiKey
    rw [h]
  · intro f h
    unfold getApiKey configIndexApiKey
    rw [h]
    rfl
  · intro h
    unfold getApiKey configIndexApiKey
    rw [h]
  · intro h h1 h2 h3 h4
    unfold getApiKey configIndexApiKey
    rw [h]
    simp [h1, h2, h3, h4]
  · intro f hak h
    unfold getApiKey configIndexApiKey
    rw [h, hak]
    rfl

/-- Witness for C10 on `c10Configuration`: the name-keyed function credential is
invoked with the scheme name, and a nullish name-keyed entry falls back to the
generic `apiKey`. -/
theorem C10_api_key_name_precedence_witness :
    lookupEntry c10Configuration.named "myKey" = some (some (.func fun n => n ++ "-key"))
    ∧ getApiKey c10Configuration "myKey" = some ("myKey" ++ "-key")
    ∧ lookupEntry c10Configuration.named "nullKey" = some none
    ∧ getApiKey c10Configuration "nullKey" = some "generic-key" :=
  ⟨rfl,
   (C10_api_key_name_precedence c10Configuration "myKey").2.1 (fun n => n ++ "-key") rfl,
   rfl,
   (C10_api_key_name_precedence c10Configuration "nullKey").2.2.1 rfl⟩
